import Mathlib

/-!
Verification development for the Diaper Defense simulation core.

The definitions below are a shallow embedding of the TypeScript sources:
the projectile type selection (src/client/entities/Poop.ts), the score and
miss state machine (ScoreSystem), the game-state machine (GameStateManager),
the collision queries (CollisionSystem.ts), the object pool (ObjectPool),
the adaptive quality controller (PerformanceManager.ts), the base entity
lifecycle (Entity, from the design document), and the engine's missed
projectile handling (DiaperDefenseEngine.checkMissedPoops).

JavaScript numbers are modelled as rationals (ℚ) where fractional values
occur and as naturals where the source only ever stores non-negative
integers.  Side effects (callback invocations, resource disposal) are made
explicit as counters or event lists in the returned state.
-/

namespace DiaperDefense

/-- Projectile types, from the PoopType enum in Poop.ts.  The engine
revision in the repository names the lethal type BOMB while the entity
revision names it BOOB; both denote the same lethal tag, embedded here
as the single constructor BOOB. -/
inductive PoopType where
  | REGULAR
  | FANCY
  | BOOB
deriving DecidableEq, Repr

/-- Per-type configuration from Poop.typeConfigs: point value and base
probability (colors are render-only and omitted). -/
structure PoopTypeConfig where
  points : Int
  probability : ℚ
deriving DecidableEq, Repr

/-- Poop.typeConfigs: REGULAR is 10 points at base probability 0.6,
FANCY is 50 points at base probability 0.25, BOOB is the lethal marker
(-1 points) at constant probability 0.15. -/
def typeConfigs : PoopType → PoopTypeConfig
  | .REGULAR => { points := 10, probability := 6/10 }
  | .FANCY => { points := 50, probability := 25/100 }
  | .BOOB => { points := -1, probability := 15/100 }

/-- State of the ScoreSystem singleton: score, total misses, consecutive
misses, the configured consecutive-miss limit, and an explicit count of
game-over callback rounds fired by triggerGameOver. -/
structure ScoreState where
  score : Nat
  misses : Nat
  consecutiveMisses : Nat
  maxMisses : Nat
  gameOverFired : Nat
deriving DecidableEq, Repr

/-- Initial ScoreSystem state: all counters zero, maxMisses defaults to 2. -/
def ScoreState.init : ScoreState :=
  { score := 0, misses := 0, consecutiveMisses := 0, maxMisses := 2, gameOverFired := 0 }

/-- ScoreSystem.addScore: REGULAR adds 10 and FANCY adds 50 points, each
resetting consecutiveMisses; BOOB fires game over and returns 0 points
without touching score or consecutiveMisses.  Returns the awarded points
together with the updated state. -/
def addScore (s : ScoreState) (t : PoopType) : Nat × ScoreState :=
  match t with
  | .REGULAR => (10, { s with score := s.score + 10, consecutiveMisses := 0 })
  | .FANCY => (50, { s with score := s.score + 50, consecutiveMisses := 0 })
  | .BOOB => (0, { s with gameOverFired := s.gameOverFired + 1 })

/-- ScoreSystem.addMiss: increments misses and consecutiveMisses, then
fires game over and returns true when consecutiveMisses has reached
maxMisses. -/
def addMiss (s : ScoreState) : Bool × ScoreState :=
  let s1 := { s with misses := s.misses + 1, consecutiveMisses := s.consecutiveMisses + 1 }
  if s1.maxMisses ≤ s1.consecutiveMisses then
    (true, { s1 with gameOverFired := s1.gameOverFired + 1 })
  else
    (false, s1)

/-- Modelled from the spec: ScoreSystem.resetConsecutiveMisses is invoked
by the engine but its defining ScoreSystem revision is absent from the
snapshot (systems/index.ts re-exports it; the sibling ScoreSystem revision
lacks the method).  Per the spec it zeroes consecutiveMisses without
affecting score or totalMisses. -/
def resetConsecutiveMisses (s : ScoreState) : ScoreState :=
  { s with consecutiveMisses := 0 }

/-- Geometry and lifecycle state of a projectile as the engine's miss
check observes it. -/
structure PoopState where
  type : PoopType
  isActive : Bool
  posY : ℚ
  screenBottom : ℚ
deriving DecidableEq, Repr

/-- Poop.isOffScreen: the projectile has fallen strictly below the bottom
boundary. -/
def PoopState.isOffScreen (p : PoopState) : Bool :=
  decide (p.posY < p.screenBottom)

/-- Result of the engine's per-projectile miss handling: the score state
afterwards, whether the projectile was destroyed, and whether
gameStateManager.endGame was called. -/
structure MissOutcome where
  score : ScoreState
  poopDestroyed : Bool
  endGameCalled : Bool
deriving DecidableEq, Repr

/-- DiaperDefenseEngine.checkMissedPoops, restricted to one projectile:
if it is active and off screen, REGULAR and FANCY misses go through
addMiss (whose signal triggers endGame), a missed lethal projectile only
resets consecutive misses, and the projectile is destroyed. -/
def checkMissedPoop (s : ScoreState) (p : PoopState) : MissOutcome :=
  if p.isActive && p.isOffScreen then
    match p.type with
    | .REGULAR =>
      let r := addMiss s
      { score := r.2, poopDestroyed := true, endGameCalled := r.1 }
    | .FANCY =>
      let r := addMiss s
      { score := r.2, poopDestroyed := true, endGameCalled := r.1 }
    | .BOOB =>
      { score := resetConsecutiveMisses s, poopDestroyed := true, endGameCalled := false }
  else
    { score := s, poopDestroyed := false, endGameCalled := false }

/-- Game states from the GameState enum. -/
inductive GameState where
  | START
  | PLAY
  | GAME_OVER
deriving DecidableEq, Repr

/-- DiaperDefenseEngine.update only runs entity updates, collision checks
and miss detection while the current state is PLAY. -/
def updateMissPhase (gs : GameState) (s : ScoreState) (p : PoopState) : MissOutcome :=
  if gs = GameState.PLAY then checkMissedPoop s p
  else { score := s, poopDestroyed := false, endGameCalled := false }

/-- Kinds of per-state callbacks the GameStateManager dispatches during a
transition. -/
inductive CallbackKind where
  | exitCb
  | enterCb
  | changeCb
deriving DecidableEq, Repr

/-- State of the GameStateManager: current and previous state, the
non-reentrancy flag, and the elapsed/origin time bookkeeping. -/
structure GSMState where
  currentState : GameState
  previousState : GameState
  isTransitioning : Bool
  gameTime : ℚ
  startTime : ℚ
deriving DecidableEq, Repr

/-- GameStateManager initial state. -/
def GSMState.init : GSMState :=
  { currentState := .START, previousState := .START, isTransitioning := false,
    gameTime := 0, startTime := 0 }

/-- GameStateManager.handleStateTransition: state-specific bookkeeping.
START zeroes the clocks, PLAY records the wall-clock origin, GAME_OVER
freezes elapsed time as now minus origin. -/
def handleStateTransition (m : GSMState) (newState : GameState) (now : ℚ) : GSMState :=
  match newState with
  | .START => { m with gameTime := 0, startTime := 0 }
  | .PLAY => { m with startTime := now, gameTime := 0 }
  | .GAME_OVER =>
    if 0 < m.startTime then { m with gameTime := now - m.startTime } else m

/-- GameStateManager.transitionTo, with wall clock passed explicitly.
A request for the current state is skipped unless forced; a request
during an in-progress transition is rejected; otherwise exit, enter and
change callbacks fire and the state switches.  Returns the new manager
state and the list of callback rounds dispatched. -/
def transitionTo (m : GSMState) (newState : GameState) (force : Bool) (now : ℚ) :
    GSMState × List (CallbackKind × GameState) :=
  if m.currentState = newState ∧ force = false then
    (m, [])
  else if m.isTransitioning then
    (m, [])
  else
    let m1 := { m with isTransitioning := true, previousState := m.currentState }
    let m2 := { m1 with currentState := newState }
    let m3 := handleStateTransition m2 newState now
    ({ m3 with isTransitioning := false },
      [(.exitCb, m.currentState), (.enterCb, newState), (.changeCb, newState)])

/-- GameStateManager.isValidTransition: the fixed transition table. -/
def isValidTransition (fromState toState : GameState) : Bool :=
  match fromState with
  | .START => toState = GameState.PLAY
  | .PLAY => toState = GameState.GAME_OVER || toState = GameState.START
  | .GAME_OVER => toState = GameState.START || toState = GameState.PLAY

/-- An entity as the AABB collision query observes it: active flag,
centre position, and the width/height its accessors report. -/
structure CollEnt where
  isActive : Bool
  x : ℚ
  y : ℚ
  width : ℚ
  height : ℚ
deriving DecidableEq, Repr

/-- CollisionSystem.checkDiaperPoopCollision: false when either entity is
inactive, otherwise the strict AABB overlap test on half dimensions. -/
def checkDiaperPoopCollision (diaper poop : CollEnt) : Bool :=
  if !diaper.isActive || !poop.isActive then
    false
  else
    decide (|diaper.x - poop.x| < diaper.width / 2 + poop.width / 2 ∧
      |diaper.y - poop.y| < diaper.height / 2 + poop.height / 2)

/-- CollisionSystem.checkDiaperPoopCollisions: iterate the projectile
array in order and return the first colliding projectile, or none. -/
def checkDiaperPoopCollisions (diaper : CollEnt) : List CollEnt → Option CollEnt
  | [] => none
  | poop :: rest =>
    if checkDiaperPoopCollision diaper poop then some poop
    else checkDiaperPoopCollisions diaper rest

/-- A poolable instance as the generic ObjectPool observes it: an
identity for tracking, the isActive flag, and a counter of reset calls.
Poolable.reset reactivates the instance (Poop.reset sets isActive true);
Poolable.destroy deactivates it. -/
structure PoolObj where
  id : Nat
  isActive : Bool
  resetCount : Nat
deriving DecidableEq, Repr

/-- Poolable reset: reactivates the instance with fresh parameters. -/
def PoolObj.reset (o : PoolObj) : PoolObj :=
  { o with isActive := true, resetCount := o.resetCount + 1 }

/-- Poolable destroy: deactivates the instance. -/
def PoolObj.destroy (o : PoolObj) : PoolObj :=
  { o with isActive := false }

/-- ObjectPool state: the backing array, the hard size cap, and the next
fresh identity the factory function would mint. -/
structure PoolState where
  pool : List PoolObj
  maxSize : Nat
  nextId : Nat
deriving DecidableEq, Repr

/-- The factory function creates a fresh active instance (the Poop
constructor activates the entity). -/
def PoolState.createObj (p : PoolState) : PoolObj :=
  { id := p.nextId, isActive := true, resetCount := 0 }

/-- In-place reset of the first inactive element of the backing array,
mirroring the mutation of the object that pool.find located. -/
def resetFirstInactive : List PoolObj → List PoolObj
  | [] => []
  | o :: rest =>
    if !o.isActive then o.reset :: rest
    else o :: resetFirstInactive rest

/-- ObjectPool.get: return the first inactive pooled instance after
resetting it; otherwise construct a new instance, appending it to the
pool only while under the cap, and return it either way. -/
def poolGet (p : PoolState) : PoolObj × PoolState :=
  match p.pool.find? (fun o => !o.isActive) with
  | some o =>
    (o.reset, { p with pool := resetFirstInactive p.pool })
  | none =>
    let newObj := p.createObj
    if p.pool.length < p.maxSize then
      (newObj, { p with pool := p.pool ++ [newObj], nextId := p.nextId + 1 })
    else
      (newObj, { p with nextId := p.nextId + 1 })

/-- ObjectPool.clear: destroy every still-active instance and empty the
backing array.  Returns the destroyed instances alongside the emptied
pool so the deactivation effect stays observable. -/
def poolClear (p : PoolState) : PoolState × List PoolObj :=
  ({ p with pool := [] },
    p.pool.map (fun o => if o.isActive then o.destroy else o))

/-- ObjectPool.getStats: total size, active count, inactive count. -/
def poolStats (p : PoolState) : Nat × Nat × Nat :=
  let active := (p.pool.filter (fun o => o.isActive)).length
  (p.pool.length, active, p.pool.length - active)

/-- Entity state from the design document's Entity base class: lifecycle
flag, scene attachment, and counters of geometry/material dispose calls
making the resource release observable. -/
structure EntityState where
  isActive : Bool
  inScene : Bool
  geometryDisposals : Nat
  materialDisposals : Nat
deriving DecidableEq, Repr

/-- A freshly constructed entity: active, attached to the scene, nothing
disposed yet. -/
def EntityState.mk' : EntityState :=
  { isActive := true, inScene := true, geometryDisposals := 0, materialDisposals := 0 }

/-- Entity.destroy from the design document: remove the mesh from the
scene, dispose geometry and material, and mark the entity inactive.  The
body has no already-destroyed guard, so every call disposes again. -/
def Entity.destroy (e : EntityState) : EntityState :=
  { e with
    inScene := false,
    geometryDisposals := e.geometryDisposals + 1,
    materialDisposals := e.materialDisposals + 1,
    isActive := false }

/-- Poop.createRandomType, with the U(0,1) draw passed explicitly.
The FANCY probability is the base 0.25 boosted by 0.05 per full 100
points, capped at 0.4; the BOOB probability stays the constant 0.15. -/
def createRandomType (score r : ℚ) : PoopType :=
  let fancyBonus : ℚ := (⌊score / 100⌋ : ℚ) * (5/100)
  let adjustedFancyProb : ℚ := min (4/10) ((typeConfigs .FANCY).probability + fancyBonus)
  let boobProb : ℚ := (typeConfigs .BOOB).probability
  if r < boobProb then .BOOB
  else if r < boobProb + adjustedFancyProb then .FANCY
  else .REGULAR

/-- A raw type argument as JavaScript can pass it: absent (undefined or
null, the falsy case) or a string tag. -/
def lookupPoopTag : Option String → Option PoopType
  | none => none
  | some tag =>
    if tag = "regular" then some .REGULAR
    else if tag = "fancy" then some .FANCY
    else if tag = "boob" then some .BOOB
    else none

/-- The defensive check shared by the Poop constructor and Poop.reset:
a falsy or unknown type logs an error and falls back to REGULAR. -/
def validatePoopType (t : Option String) : PoopType :=
  match lookupPoopTag t with
  | some pt => pt
  | none => .REGULAR

/-- The fields of a Poop the type-fallback claim observes: the type tag,
its point value, and the active flag. -/
structure PoopFields where
  type : PoopType
  points : Int
  isActive : Bool
deriving DecidableEq, Repr

/-- Poop constructor: validate the requested type, record the configured
point value of the resulting type, and activate the entity. -/
def mkPoop (t : Option String) : PoopFields :=
  let pt := validatePoopType t
  { type := pt, points := (typeConfigs pt).points, isActive := true }

/-- Poop.reset: an invalid scene aborts the reset; otherwise the type is
validated with the same REGULAR fallback, points follow the new type,
and the entity is reactivated. -/
def resetPoop (p : PoopFields) (sceneValid : Bool) (t : Option String) : PoopFields :=
  if !sceneValid then p
  else
    let pt := validatePoopType t
    { type := pt, points := (typeConfigs pt).points, isActive := true }

/-- Quality settings bundle from PerformanceManager. -/
structure QualitySettings where
  pixelRatio : ℚ
  particleCount : ℚ
  shadowQuality : Bool
  antialiasing : Bool
  textureQuality : ℚ
  maxEntities : ℚ
  targetFPS : ℚ
deriving DecidableEq, Repr

/-- Device capability tiers. -/
inductive DeviceCapability where
  | LOW
  | MEDIUM
  | HIGH
deriving DecidableEq, Repr

/-- PerformanceManager.getInitialQualitySettings, parametrised by the
tier and the device pixel ratio the constructor detected. -/
def getInitialQualitySettings (cap : DeviceCapability) (devicePixelRatio : ℚ) :
    QualitySettings :=
  match cap with
  | .LOW =>
    { pixelRatio := min devicePixelRatio 1, particleCount := 10,
      shadowQuality := false, antialiasing := false, textureQuality := 1/2,
      maxEntities := 20, targetFPS := 30 }
  | .MEDIUM =>
    { pixelRatio := min devicePixelRatio (3/2), particleCount := 20,
      shadowQuality := false, antialiasing := true, textureQuality := 1,
      maxEntities := 40, targetFPS := 45 }
  | .HIGH =>
    { pixelRatio := devicePixelRatio, particleCount := 30,
      shadowQuality := true, antialiasing := true, textureQuality := 1,
      maxEntities := 60, targetFPS := 60 }

/-- PerformanceManager.reduceQuality: an if/else chain lowering the first
reducible dimension, in the order particle count, pixel ratio,
antialiasing, texture quality, max entities. -/
def reduceQuality (q : QualitySettings) : QualitySettings :=
  if 5 < q.particleCount then
    { q with particleCount := max 5 (q.particleCount - 5) }
  else if 1/2 < q.pixelRatio then
    { q with pixelRatio := max (1/2) (q.pixelRatio - 1/4) }
  else if q.antialiasing then
    { q with antialiasing := false }
  else if 1/2 < q.textureQuality then
    { q with textureQuality := 1/2 }
  else if 10 < q.maxEntities then
    { q with maxEntities := max 10 (q.maxEntities - 10) }
  else
    q

/-- PerformanceManager.increaseQuality: an if/else chain raising the
first dimension with headroom versus the tier-initial settings, in the
same order as reduceQuality (particle count first). -/
def increaseQuality (q init : QualitySettings) : QualitySettings :=
  if q.particleCount < init.particleCount then
    { q with particleCount := min init.particleCount (q.particleCount + 5) }
  else if q.pixelRatio < init.pixelRatio then
    { q with pixelRatio := min init.pixelRatio (q.pixelRatio + 1/4) }
  else if !q.antialiasing && init.antialiasing then
    { q with antialiasing := true }
  else if q.textureQuality < init.textureQuality then
    { q with textureQuality := init.textureQuality }
  else if q.maxEntities < init.maxEntities then
    { q with maxEntities := min init.maxEntities (q.maxEntities + 10) }
  else
    q

/-- PerformanceManager.canIncreaseQuality: some dimension is below the
tier-initial settings. -/
def canIncreaseQuality (q init : QualitySettings) : Bool :=
  decide (q.particleCount < init.particleCount) ||
  decide (q.pixelRatio < init.pixelRatio) ||
  (!q.antialiasing && init.antialiasing) ||
  decide (q.textureQuality < init.textureQuality) ||
  decide (q.maxEntities < init.maxEntities)

/-- PerformanceManager state relevant to the adjustment loop: current
settings, the tier-initial settings, the frame-time history window, the
timestamp of the last adjustment, and the 5000 ms cooldown. -/
structure PerfState where
  settings : QualitySettings
  init : QualitySettings
  history : List ℚ
  lastAdjustment : ℚ
deriving DecidableEq, Repr

/-- The 5-second quality adjustment cooldown. -/
def qualityAdjustmentCooldown : ℚ := 5000

/-- Average FPS over the sample window: 1000 divided by the mean frame
time. -/
def avgFPS (history : List ℚ) : ℚ :=
  1000 / (history.sum / history.length)

/-- PerformanceManager.checkPerformanceAndAdjust, with the wall clock
passed explicitly: inside the cooldown or with fewer than 30 samples
nothing happens; below 80 percent of target FPS quality is reduced;
above 120 percent with headroom it is increased. -/
def checkPerformanceAndAdjust (p : PerfState) (now : ℚ) : PerfState :=
  if now - p.lastAdjustment < qualityAdjustmentCooldown then p
  else if p.history.length < 30 then p
  else
    let fps := avgFPS p.history
    let target := p.settings.targetFPS
    if fps < target * (8/10) then
      { p with settings := reduceQuality p.settings, lastAdjustment := now }
    else if target * (12/10) < fps ∧ canIncreaseQuality p.settings p.init then
      { p with settings := increaseQuality p.settings p.init, lastAdjustment := now }
    else
      p

/-!  Theorems settling the claims.  -/

/-- Claim C1: when a lethal projectile is missed (active and fallen past the
bottom boundary) during PLAY, the engine invokes resetConsecutiveMisses,
so consecutiveMisses becomes 0 while score, totalMisses and the
game-over callback count are unchanged, and endGame is not called. -/
theorem missed_lethal_resets_consecutive (s : ScoreState) (p : PoopState)
    (hType : p.type = PoopType.BOOB) (hAct : p.isActive = true)
    (hOff : p.isOffScreen = true) :
    (updateMissPhase GameState.PLAY s p).score = resetConsecutiveMisses s ∧
    (updateMissPhase GameState.PLAY s p).score.consecutiveMisses = 0 ∧
    (updateMissPhase GameState.PLAY s p).score.score = s.score ∧
    (updateMissPhase GameState.PLAY s p).score.misses = s.misses ∧
    (updateMissPhase GameState.PLAY s p).score.gameOverFired = s.gameOverFired ∧
    (updateMissPhase GameState.PLAY s p).endGameCalled = false := by
  simp only [updateMissPhase, checkMissedPoop, hType, hAct, hOff, if_pos rfl,
    Bool.and_self, if_true, resetConsecutiveMisses]
  simp

/-- Witness for C1 at a concrete lethal projectile below the boundary. -/
theorem missed_lethal_resets_consecutive_witness :
    (updateMissPhase GameState.PLAY
      { score := 120, misses := 3, consecutiveMisses := 1, maxMisses := 2, gameOverFired := 0 }
      { type := PoopType.BOOB, isActive := true, posY := -400, screenBottom := -300 }).score
      =
      { score := 120, misses := 3, consecutiveMisses := 0, maxMisses := 2, gameOverFired := 0 } := by
  have h := missed_lethal_resets_consecutive
    { score := 120, misses := 3, consecutiveMisses := 1, maxMisses := 2, gameOverFired := 0 }
    { type := PoopType.BOOB, isActive := true, posY := -400, screenBottom := -300 }
    rfl rfl (by decide)
  exact h.1.trans rfl

/-- Claim C4: addScore adds 10 for REGULAR and 50 for FANCY, each resetting
consecutiveMisses without firing game over; for the lethal type it
returns 0 points, leaves score and consecutiveMisses unchanged, and
fires the game-over callbacks regardless of the miss count. -/
theorem addScore_cases (s : ScoreState) :
    (addScore s PoopType.REGULAR).1 = 10 ∧
    (addScore s PoopType.REGULAR).2.score = s.score + 10 ∧
    (addScore s PoopType.REGULAR).2.consecutiveMisses = 0 ∧
    (addScore s PoopType.REGULAR).2.misses = s.misses ∧
    (addScore s PoopType.REGULAR).2.gameOverFired = s.gameOverFired ∧
    (addScore s PoopType.FANCY).1 = 50 ∧
    (addScore s PoopType.FANCY).2.score = s.score + 50 ∧
    (addScore s PoopType.FANCY).2.consecutiveMisses = 0 ∧
    (addScore s PoopType.FANCY).2.misses = s.misses ∧
    (addScore s PoopType.FANCY).2.gameOverFired = s.gameOverFired ∧
    (addScore s PoopType.BOOB).1 = 0 ∧
    (addScore s PoopType.BOOB).2.score = s.score ∧
    (addScore s PoopType.BOOB).2.consecutiveMisses = s.consecutiveMisses ∧
    (addScore s PoopType.BOOB).2.misses = s.misses ∧
    (addScore s PoopType.BOOB).2.gameOverFired = s.gameOverFired + 1 := by
  simp [addScore]

/-- Claim C5: addMiss increments both counters by one and fires game over,
returning true, exactly when the incremented consecutive count reaches
the configured max; concretely from the initial state (max 2) two misses
in a row fire game over, while a catch between two misses resets the
counter so the separated second miss does not. -/
theorem addMiss_spec :
    (∀ s : ScoreState,
      (addMiss s).2.misses = s.misses + 1 ∧
      (addMiss s).2.consecutiveMisses = s.consecutiveMisses + 1 ∧
      ((addMiss s).1 = true ↔ s.maxMisses ≤ s.consecutiveMisses + 1) ∧
      ((addMiss s).1 = true → (addMiss s).2.gameOverFired = s.gameOverFired + 1) ∧
      ((addMiss s).1 = false → (addMiss s).2.gameOverFired = s.gameOverFired)) ∧
    (addMiss ScoreState.init).1 = false ∧
    (addMiss (addMiss ScoreState.init).2).1 = true ∧
    (addMiss (addScore (addMiss ScoreState.init).2 PoopType.REGULAR).2).1 = false := by
  refine ⟨fun s => ?_, by decide, by decide, by decide⟩
  by_cases h : s.maxMisses ≤ s.consecutiveMisses + 1
  · simp [addMiss, h]
  · simp [addMiss, h]

/-- Witness for C5: the first miss from the initial state does not fire
game over, so the callback count stays put. -/
theorem addMiss_spec_witness :
    (addMiss ScoreState.init).2.gameOverFired = ScoreState.init.gameOverFired :=
  (addMiss_spec.1 ScoreState.init).2.2.2.2 (by decide)

/-- Claim C2 counterexample: the pair (START, GAME_OVER) is outside the fixed
transition table, yet a non-forced transitionTo(GAME_OVER) issued in
START is accepted: the state changes and the exit, enter and change
callback rounds all run. -/
theorem start_to_gameover_not_rejected :
    isValidTransition GameState.START GameState.GAME_OVER = false ∧
    (transitionTo GSMState.init GameState.GAME_OVER false 100).1.currentState =
      GameState.GAME_OVER ∧
    (transitionTo GSMState.init GameState.GAME_OVER false 100).2 =
      [(CallbackKind.exitCb, GameState.START),
        (CallbackKind.enterCb, GameState.GAME_OVER),
        (CallbackKind.changeCb, GameState.GAME_OVER)] := by
  refine ⟨rfl, ?_, ?_⟩ <;> rfl

/-- Claim C2 amended: non-forced transitionTo rejects a request exactly when
the target equals the current state or a transition is in progress; the
transition table is implemented by isValidTransition but transitionTo
never consults it, so every cross-state request, including the
out-of-table pair START to GAME_OVER, is accepted with all three
callback rounds. -/
theorem transitionTo_amended :
    (∀ (m : GSMState) (t : GameState) (now : ℚ), m.currentState = t →
      transitionTo m t false now = (m, [])) ∧
    (∀ (m : GSMState) (t : GameState) (force : Bool) (now : ℚ),
      ¬(m.currentState = t ∧ force = false) → m.isTransitioning = true →
      transitionTo m t force now = (m, [])) ∧
    (∀ (m : GSMState) (t : GameState) (now : ℚ),
      m.isTransitioning = false → m.currentState ≠ t →
      (transitionTo m t false now).1.currentState = t ∧
      (transitionTo m t false now).1.previousState = m.currentState ∧
      (transitionTo m t false now).2 =
        [(CallbackKind.exitCb, m.currentState), (CallbackKind.enterCb, t),
          (CallbackKind.changeCb, t)]) ∧
    (∀ a b : GameState, isValidTransition a b = true ↔
      (a, b) ∈ [(GameState.START, GameState.PLAY),
        (GameState.PLAY, GameState.GAME_OVER), (GameState.PLAY, GameState.START),
        (GameState.GAME_OVER, GameState.START), (GameState.GAME_OVER, GameState.PLAY)]) := by
  refine ⟨?_, ?_, ?_, ?_⟩
  · intro m t now h
    simp [transitionTo, h]
  · intro m t force now h htr
    rw [transitionTo, if_neg h, if_pos htr]
  · intro m t now htr hne
    rw [transitionTo, if_neg (by simp [hne]), if_neg (by simp [htr])]
    cases t <;> simp [handleStateTransition]
    split <;> simp
  · intro a b
    cases a <;> cases b <;> simp [isValidTransition]

/-- A manager state captured mid-transition, used as a concrete input. -/
def midTransitionState : GSMState :=
  { currentState := GameState.PLAY, previousState := GameState.START,
    isTransitioning := true, gameTime := 0, startTime := 7 }

/-- Witness for C2's amended theorem: from a PLAY state mid-transition a
request for GAME_OVER is rejected, and from START at rest a request for
GAME_OVER is accepted. -/
theorem transitionTo_amended_witness :
    transitionTo midTransitionState GameState.GAME_OVER false 9 =
      (midTransitionState, []) ∧
    (transitionTo GSMState.init GameState.GAME_OVER false 9).1.currentState =
      GameState.GAME_OVER := by
  constructor
  · exact transitionTo_amended.2.1 midTransitionState
      GameState.GAME_OVER false 9 (by simp [midTransitionState]) rfl
  · exact (transitionTo_amended.2.2.1 GSMState.init GameState.GAME_OVER 9 rfl
      (by simp [GSMState.init])).1

/-- The selection thresholds of createRandomType written out. -/
theorem createRandomType_eq (S r : ℚ) :
    createRandomType S r =
      if r < 15/100 then PoopType.BOOB
      else if r < 15/100 + min (4/10) (25/100 + (⌊S / 100⌋ : ℚ) * (5/100)) then
        PoopType.FANCY
      else PoopType.REGULAR := rfl

/-- Claim C6: the draw r selects the lethal type exactly when r is below the
constant 0.15 (independent of the score), the high-value type exactly
when r falls in the next window of width min(0.40, 0.25 + floor(S/100)
times 0.05), and the low-value type otherwise. -/
theorem createRandomType_thresholds (S r : ℚ) :
    (createRandomType S r = PoopType.BOOB ↔ r < 15/100) ∧
    (createRandomType S r = PoopType.FANCY ↔
      ¬r < 15/100 ∧ r < 15/100 + min (4/10) (25/100 + (⌊S / 100⌋ : ℚ) * (5/100))) ∧
    (createRandomType S r = PoopType.REGULAR ↔
      ¬r < 15/100 ∧ ¬r < 15/100 + min (4/10) (25/100 + (⌊S / 100⌋ : ℚ) * (5/100))) ∧
    (∀ T : ℚ, (createRandomType S r = PoopType.BOOB ↔
      createRandomType T r = PoopType.BOOB)) := by
  refine ⟨?_, ?_, ?_, ?_⟩
  · rw [createRandomType_eq]
    split_ifs with h1 h2 <;> simp [*]
  · rw [createRandomType_eq]
    split_ifs with h1 h2 <;> simp [*]
  · rw [createRandomType_eq]
    split_ifs with h1 h2 <;> simp [*]
  · intro T
    rw [createRandomType_eq S, createRandomType_eq T]
    by_cases h1 : r < 15/100
    · simp [h1]
    · simp only [h1, if_false]
      split_ifs <;> simp

/-- Claim C7 counterexample: destroying a freshly constructed entity twice
runs geometry and material disposal twice, not exactly once; the body of
Entity.destroy has no already-destroyed guard. -/
theorem destroy_disposes_twice :
    (Entity.destroy (Entity.destroy EntityState.mk')).geometryDisposals = 2 ∧
    (Entity.destroy (Entity.destroy EntityState.mk')).materialDisposals = 2 ∧
    ¬(Entity.destroy (Entity.destroy EntityState.mk')).geometryDisposals = 1 := by
  decide

/-- Claim C7 amended: destroy marks the entity inactive and detaches it from
the scene, and those flags are idempotent under a second call, but each
call disposes geometry and material again, so two calls release the
visual resource twice rather than exactly once. -/
theorem destroy_amended (e : EntityState) :
    (Entity.destroy e).isActive = false ∧
    (Entity.destroy e).inScene = false ∧
    (Entity.destroy (Entity.destroy e)).isActive = (Entity.destroy e).isActive ∧
    (Entity.destroy (Entity.destroy e)).inScene = (Entity.destroy e).inScene ∧
    (Entity.destroy e).geometryDisposals = e.geometryDisposals + 1 ∧
    (Entity.destroy (Entity.destroy e)).geometryDisposals = e.geometryDisposals + 2 ∧
    (Entity.destroy (Entity.destroy e)).materialDisposals = e.materialDisposals + 2 := by
  simp [Entity.destroy]

/-- Claim C10: whatever raw value is passed as the type, the constructor and
reset are total, fall back to REGULAR on a falsy or unknown tag, and the
resulting projectile carries the configured point value of its type; an
invalid scene makes reset a no-op. -/
theorem poop_type_fallback (t : Option String) (p : PoopFields) :
    (mkPoop t).isActive = true ∧
    (mkPoop t).points = (typeConfigs (mkPoop t).type).points ∧
    (lookupPoopTag t = none →
      (mkPoop t).type = PoopType.REGULAR ∧ (mkPoop t).points = 10) ∧
    (resetPoop p true t).isActive = true ∧
    (resetPoop p true t).points = (typeConfigs (resetPoop p true t).type).points ∧
    (lookupPoopTag t = none →
      (resetPoop p true t).type = PoopType.REGULAR ∧ (resetPoop p true t).points = 10) ∧
    resetPoop p false t = p := by
  refine ⟨rfl, rfl, fun h => ?_, rfl, rfl, fun h => ?_, rfl⟩
  · simp [mkPoop, validatePoopType, h, typeConfigs]
  · simp [resetPoop, validatePoopType, h, typeConfigs]

/-- Witness for C10 at an unknown tag: the fallback type is REGULAR with
its 10-point value. -/
theorem poop_type_fallback_witness :
    (mkPoop (some "banana")).type = PoopType.REGULAR ∧
    (mkPoop (some "banana")).points = 10 := by
  exact (poop_type_fallback (some "banana") (mkPoop none)).2.2.1 (by decide)

/-- The batch collision query returns none exactly when no projectile in
the array passes the pairwise test. -/
theorem collisions_none_iff (d : CollEnt) (ps : List CollEnt) :
    checkDiaperPoopCollisions d ps = none ↔
      ∀ p ∈ ps, checkDiaperPoopCollision d p = false := by
  induction ps with
  | nil => simp [checkDiaperPoopCollisions]
  | cons p rest ih =>
    by_cases h : checkDiaperPoopCollision d p = true
    · simp [checkDiaperPoopCollisions, h]
    · simp only [Bool.not_eq_true] at h
      simp [checkDiaperPoopCollisions, h, ih]

/-- When the batch collision query returns a projectile, it is the first
one in array order passing the pairwise test. -/
theorem collisions_some_first (d q : CollEnt) :
    ∀ ps : List CollEnt, checkDiaperPoopCollisions d ps = some q →
      checkDiaperPoopCollision d q = true ∧
      ∃ l1 l2, ps = l1 ++ q :: l2 ∧
        ∀ x ∈ l1, checkDiaperPoopCollision d x = false := by
  intro ps
  induction ps with
  | nil => intro h; simp [checkDiaperPoopCollisions] at h
  | cons p rest ih =>
    intro h
    rw [checkDiaperPoopCollisions] at h
    by_cases hc : checkDiaperPoopCollision d p = true
    · rw [if_pos hc] at h
      injection h with h
      subst h
      exact ⟨hc, [], rest, rfl, by simp⟩
    · rw [if_neg hc] at h
      obtain ⟨h1, l1, l2, rfl, hall⟩ := ih h
      refine ⟨h1, p :: l1, l2, rfl, ?_⟩
      intro x hx
      rcases List.mem_cons.mp hx with rfl | hx
      · simpa using hc
      · exact hall x hx

/-- Claim C9: the pairwise test is false when either entity is inactive and is
otherwise the strict AABB overlap on half dimensions; the batch query is
a pure function of its arguments returning none exactly when nothing
collides, and otherwise the first projectile in array order that passes
the test. -/
theorem collision_query_spec (d : CollEnt) (ps : List CollEnt) :
    (∀ p : CollEnt, checkDiaperPoopCollision d p = true ↔
      (d.isActive = true ∧ p.isActive = true ∧
        |d.x - p.x| < d.width / 2 + p.width / 2 ∧
        |d.y - p.y| < d.height / 2 + p.height / 2)) ∧
    (checkDiaperPoopCollisions d ps = none ↔
      ∀ p ∈ ps, checkDiaperPoopCollision d p = false) ∧
    (∀ q : CollEnt, checkDiaperPoopCollisions d ps = some q →
      checkDiaperPoopCollision d q = true ∧
      ∃ l1 l2, ps = l1 ++ q :: l2 ∧
        ∀ x ∈ l1, checkDiaperPoopCollision d x = false) := by
  refine ⟨fun p => ?_, collisions_none_iff d ps,
    fun q h => collisions_some_first d q ps h⟩
  cases hd : d.isActive <;> cases hp : p.isActive <;>
    simp [checkDiaperPoopCollision, hd, hp]

/-- A concrete catcher for the collision witness. -/
def dW : CollEnt :=
  { isActive := true, x := 0, y := 0, width := 100, height := 20 }

/-- A concrete inactive projectile that cannot collide. -/
def p1W : CollEnt :=
  { isActive := false, x := 0, y := 0, width := 30, height := 30 }

/-- A concrete active projectile overlapping the catcher. -/
def p2W : CollEnt :=
  { isActive := true, x := 10, y := 5, width := 30, height := 30 }

/-- Witness for C9: over the two-projectile array the query returns the
second, first-colliding projectile, skipping the inactive one. -/
theorem collision_query_spec_witness :
    checkDiaperPoopCollision dW p2W = true ∧
    ∃ l1 l2, [p1W, p2W] = l1 ++ p2W :: l2 ∧
      ∀ x ∈ l1, checkDiaperPoopCollision dW x = false :=
  (collision_query_spec dW [p1W, p2W]).2.2 p2W (by
    norm_num [checkDiaperPoopCollisions, checkDiaperPoopCollision, dW, p1W, p2W, abs])

/-- When the pool scan finds an inactive instance, it is the first one:
the array splits into an all-active front segment, that instance, and
the tail, and the in-place reset only rewrites that instance. -/
theorem find_inactive_split :
    ∀ (l : List PoolObj) (o : PoolObj),
      l.find? (fun x => !x.isActive) = some o →
      o.isActive = false ∧ ∃ l1 l2, l = l1 ++ o :: l2 ∧
        (∀ x ∈ l1, x.isActive = true) ∧
        resetFirstInactive l = l1 ++ o.reset :: l2 := by
  intro l
  induction l with
  | nil => intro o h; simp at h
  | cons a rest ih =>
    intro o h
    by_cases ha : a.isActive = true
    · have hpa : (!a.isActive) = false := by simp [ha]
      rw [List.find?_cons, hpa] at h
      obtain ⟨ho, l1, l2, heq, hall, hreset⟩ := ih o h
      refine ⟨ho, a :: l1, l2, by simp [heq], ?_, ?_⟩
      · intro x hx
        rcases List.mem_cons.mp hx with rfl | hx
        · exact ha
        · exact hall x hx
      · rw [resetFirstInactive, hpa]
        simp [hreset]
    · have hpa : (!a.isActive) = true := by simp [ha]
      rw [List.find?_cons, hpa] at h
      injection h with h
      subst h
      refine ⟨by simpa using ha, [], rest, rfl, by simp, ?_⟩
      rw [resetFirstInactive, hpa]
      rfl

/-- Claim C8: acquire returns the first inactive instance of the array after
resetting (reactivating) it in place, leaving every other instance, in
particular every active one, untouched; with no inactive instance it
returns a freshly constructed active instance, appended to the array
exactly when the pool is under its hard cap; clear empties the pool, the
reported active count drops to 0, and every cleared instance ends up
deactivated. -/
theorem pool_acquire_clear_spec (p : PoolState) :
    (∀ o : PoolObj, p.pool.find? (fun x => !x.isActive) = some o →
      o.isActive = false ∧ (poolGet p).1 = o.reset ∧ (poolGet p).1.isActive = true ∧
      ∃ l1 l2, p.pool = l1 ++ o :: l2 ∧ (∀ x ∈ l1, x.isActive = true) ∧
        (poolGet p).2.pool = l1 ++ o.reset :: l2) ∧
    (p.pool.find? (fun x => !x.isActive) = none →
      (poolGet p).1 = p.createObj ∧ (poolGet p).1.isActive = true ∧
      (p.pool.length < p.maxSize → (poolGet p).2.pool = p.pool ++ [p.createObj]) ∧
      (p.maxSize ≤ p.pool.length → (poolGet p).2.pool = p.pool)) ∧
    (poolClear p).1.pool = [] ∧
    (poolStats (poolClear p).1).2.1 = 0 ∧
    (∀ o ∈ (poolClear p).2, o.isActive = false) := by
  refine ⟨fun o h => ?_, fun h => ?_, rfl, rfl, fun o ho => ?_⟩
  · obtain ⟨ho, l1, l2, heq, hall, hreset⟩ := find_inactive_split p.pool o h
    refine ⟨ho, ?_, ?_, l1, l2, heq, hall, ?_⟩
    · simp [poolGet, h]
    · simp [poolGet, h, PoolObj.reset]
    · simp [poolGet, h, hreset]
  · by_cases hlt : p.pool.length < p.maxSize
    · exact ⟨by simp [poolGet, h, hlt], by simp [poolGet, h, hlt, PoolState.createObj],
        fun _ => by simp [poolGet, h, hlt], fun hge => absurd hlt (by omega)⟩
    · exact ⟨by simp [poolGet, h, hlt], by simp [poolGet, h, hlt, PoolState.createObj],
        fun hlt2 => absurd hlt2 hlt, fun _ => by simp [poolGet, h, hlt]⟩
  · simp only [poolClear, List.mem_map] at ho
    obtain ⟨x, hx, rfl⟩ := ho
    by_cases hxa : x.isActive = true
    · simp [hxa, PoolObj.destroy]
    · simp only [Bool.not_eq_true] at hxa
      simp [hxa]

/-- A concrete pool for the C8 witness: one active instance followed by
one inactive instance, capped at two. -/
def poolW : PoolState :=
  { pool := [{ id := 0, isActive := true, resetCount := 0 },
      { id := 1, isActive := false, resetCount := 3 }],
    maxSize := 2, nextId := 2 }

/-- Witness for C8: acquiring from the concrete pool reactivates its
inactive second instance rather than the active first one. -/
theorem pool_acquire_clear_spec_witness :
    (poolGet poolW).1 = PoolObj.reset { id := 1, isActive := false, resetCount := 3 } ∧
    (poolGet poolW).1.isActive = true := by
  have h := (pool_acquire_clear_spec poolW).1
    { id := 1, isActive := false, resetCount := 3 } (by decide)
  exact ⟨h.2.1, h.2.2.1⟩

/-- All quality dimensions except the particle budget agree. -/
def eqExceptParticles (q r : QualitySettings) : Prop :=
  r.pixelRatio = q.pixelRatio ∧ r.shadowQuality = q.shadowQuality ∧
  r.antialiasing = q.antialiasing ∧ r.textureQuality = q.textureQuality ∧
  r.maxEntities = q.maxEntities ∧ r.targetFPS = q.targetFPS

/-- All quality dimensions except the render scale agree. -/
def eqExceptPixelRatio (q r : QualitySettings) : Prop :=
  r.particleCount = q.particleCount ∧ r.shadowQuality = q.shadowQuality ∧
  r.antialiasing = q.antialiasing ∧ r.textureQuality = q.textureQuality ∧
  r.maxEntities = q.maxEntities ∧ r.targetFPS = q.targetFPS

/-- All quality dimensions except anti-aliasing agree. -/
def eqExceptAA (q r : QualitySettings) : Prop :=
  r.particleCount = q.particleCount ∧ r.pixelRatio = q.pixelRatio ∧
  r.shadowQuality = q.shadowQuality ∧ r.textureQuality = q.textureQuality ∧
  r.maxEntities = q.maxEntities ∧ r.targetFPS = q.targetFPS

/-- All quality dimensions except texture quality agree. -/
def eqExceptTexture (q r : QualitySettings) : Prop :=
  r.particleCount = q.particleCount ∧ r.pixelRatio = q.pixelRatio ∧
  r.shadowQuality = q.shadowQuality ∧ r.antialiasing = q.antialiasing ∧
  r.maxEntities = q.maxEntities ∧ r.targetFPS = q.targetFPS

/-- All quality dimensions except the entity budget agree. -/
def eqExceptEntities (q r : QualitySettings) : Prop :=
  r.particleCount = q.particleCount ∧ r.pixelRatio = q.pixelRatio ∧
  r.shadowQuality = q.shadowQuality ∧ r.antialiasing = q.antialiasing ∧
  r.textureQuality = q.textureQuality ∧ r.targetFPS = q.targetFPS

/-- The MEDIUM-tier initial settings on a device pixel ratio of 2. -/
def mediumInit : QualitySettings := getInitialQualitySettings DeviceCapability.MEDIUM 2

/-- A MEDIUM-tier settings bundle reached after repeated downgrades:
particles and render scale at their floors, anti-aliasing already off,
texture quality and entity budget still at their initial values. -/
def degradedMedium : QualitySettings :=
  { pixelRatio := 1/2, particleCount := 5, shadowQuality := false,
    antialiasing := false, textureQuality := 1, maxEntities := 40, targetFPS := 45 }

/-- A MEDIUM-tier settings bundle with headroom in both the particle
budget and the entity budget. -/
def partialMedium : QualitySettings :=
  { pixelRatio := 3/2, particleCount := 15, shadowQuality := false,
    antialiasing := true, textureQuality := 1, maxEntities := 30, targetFPS := 45 }

/-- Claim C3 counterexample: at degradedMedium the claim's four-dimension
priority order says the next downgrade hits the entity budget, but the
code lowers texture quality (a dimension the claim omits) and leaves the
entity budget alone; and with headroom in both particles and entities
the claim's reverse-order upgrade would raise the entity budget first,
but the code raises the particle budget and leaves the entity budget
alone. -/
theorem quality_priority_counterexample :
    (reduceQuality degradedMedium).maxEntities = 40 ∧
    (reduceQuality degradedMedium).textureQuality = 1/2 ∧
    reduceQuality degradedMedium ≠ degradedMedium ∧
    (increaseQuality partialMedium mediumInit).maxEntities = 30 ∧
    (increaseQuality partialMedium mediumInit).particleCount = 20 := by
  refine ⟨?_, ?_, ?_, ?_, ?_⟩ <;>
    norm_num [reduceQuality, increaseQuality, degradedMedium, partialMedium,
      mediumInit, getInitialQualitySettings]

/-- Downgrade branch: particle budget. -/
theorem reduceQuality_particles (q : QualitySettings) (h : 5 < q.particleCount) :
    reduceQuality q = { q with particleCount := max 5 (q.particleCount - 5) } := by
  unfold reduceQuality
  rw [if_pos h]

/-- Downgrade branch: render scale. -/
theorem reduceQuality_pixel (q : QualitySettings) (h1 : ¬5 < q.particleCount)
    (h2 : 1/2 < q.pixelRatio) :
    reduceQuality q = { q with pixelRatio := max (1/2) (q.pixelRatio - 1/4) } := by
  unfold reduceQuality
  rw [if_neg h1, if_pos h2]

/-- Downgrade branch: anti-aliasing. -/
theorem reduceQuality_aa (q : QualitySettings) (h1 : ¬5 < q.particleCount)
    (h2 : ¬1/2 < q.pixelRatio) (h3 : q.antialiasing = true) :
    reduceQuality q = { q with antialiasing := false } := by
  unfold reduceQuality
  rw [if_neg h1, if_neg h2, if_pos h3]

/-- Downgrade branch: texture quality. -/
theorem reduceQuality_texture (q : QualitySettings) (h1 : ¬5 < q.particleCount)
    (h2 : ¬1/2 < q.pixelRatio) (h3 : q.antialiasing = false)
    (h4 : 1/2 < q.textureQuality) :
    reduceQuality q = { q with textureQuality := 1/2 } := by
  unfold reduceQuality
  rw [if_neg h1, if_neg h2, if_neg (by simp [h3]), if_pos h4]

/-- Downgrade branch: entity budget. -/
theorem reduceQuality_entities (q : QualitySettings) (h1 : ¬5 < q.particleCount)
    (h2 : ¬1/2 < q.pixelRatio) (h3 : q.antialiasing = false)
    (h4 : ¬1/2 < q.textureQuality) (h5 : 10 < q.maxEntities) :
    reduceQuality q = { q with maxEntities := max 10 (q.maxEntities - 10) } := by
  unfold reduceQuality
  rw [if_neg h1, if_neg h2, if_neg (by simp [h3]), if_neg h4, if_pos h5]

/-- Upgrade branch: particle budget. -/
theorem increaseQuality_particles (q init : QualitySettings)
    (h : q.particleCount < init.particleCount) :
    increaseQuality q init =
      { q with particleCount := min init.particleCount (q.particleCount + 5) } := by
  unfold increaseQuality
  rw [if_pos h]

/-- Upgrade branch: render scale. -/
theorem increaseQuality_pixel (q init : QualitySettings)
    (h1 : ¬q.particleCount < init.particleCount) (h2 : q.pixelRatio < init.pixelRatio) :
    increaseQuality q init =
      { q with pixelRatio := min init.pixelRatio (q.pixelRatio + 1/4) } := by
  unfold increaseQuality
  rw [if_neg h1, if_pos h2]

/-- Upgrade branch: anti-aliasing. -/
theorem increaseQuality_aa (q init : QualitySettings)
    (h1 : ¬q.particleCount < init.particleCount) (h2 : ¬q.pixelRatio < init.pixelRatio)
    (h3 : q.antialiasing = false) (h4 : init.antialiasing = true) :
    increaseQuality q init = { q with antialiasing := true } := by
  unfold increaseQuality
  rw [if_neg h1, if_neg h2, if_pos (by simp [h3, h4])]

/-- Upgrade branch: texture quality. -/
theorem increaseQuality_texture (q init : QualitySettings)
    (h1 : ¬q.particleCount < init.particleCount) (h2 : ¬q.pixelRatio < init.pixelRatio)
    (h3 : q.antialiasing = true ∨ init.antialiasing = false)
    (h4 : q.textureQuality < init.textureQuality) :
    increaseQuality q init = { q with textureQuality := init.textureQuality } := by
  unfold increaseQuality
  rcases h3 with h3 | h3 <;>
    rw [if_neg h1, if_neg h2, if_neg (by simp [h3]), if_pos h4]

/-- Upgrade branch: entity budget. -/
theorem increaseQuality_entities (q init : QualitySettings)
    (h1 : ¬q.particleCount < init.particleCount) (h2 : ¬q.pixelRatio < init.pixelRatio)
    (h3 : q.antialiasing = true ∨ init.antialiasing = false)
    (h4 : ¬q.textureQuality < init.textureQuality) (h5 : q.maxEntities < init.maxEntities) :
    increaseQuality q init =
      { q with maxEntities := min init.maxEntities (q.maxEntities + 10) } := by
  unfold increaseQuality
  rcases h3 with h3 | h3 <;>
    rw [if_neg h1, if_neg h2, if_neg (by simp [h3]), if_neg h4, if_pos h5]

/-- Claim C3 amended: below 80 percent of target FPS (cooldown elapsed, at
least 30 samples) the controller applies reduceQuality, and above 120
percent with headroom it applies increaseQuality; each adjustment
changes exactly one dimension, in the priority order particle budget,
render scale, anti-aliasing, texture quality, entity budget for
downgrades, and in that same order (particle budget first, not the
reverse) for upgrades, with upgrades capped at the tier-initial
settings. -/
theorem quality_adjust_amended :
    (∀ (p : PerfState) (now : ℚ),
      qualityAdjustmentCooldown ≤ now - p.lastAdjustment → 30 ≤ p.history.length →
      avgFPS p.history < p.settings.targetFPS * (8/10) →
      (checkPerformanceAndAdjust p now).settings = reduceQuality p.settings ∧
      (checkPerformanceAndAdjust p now).lastAdjustment = now) ∧
    (∀ (p : PerfState) (now : ℚ),
      qualityAdjustmentCooldown ≤ now - p.lastAdjustment → 30 ≤ p.history.length →
      0 < p.settings.targetFPS →
      p.settings.targetFPS * (12/10) < avgFPS p.history →
      canIncreaseQuality p.settings p.init = true →
      (checkPerformanceAndAdjust p now).settings = increaseQuality p.settings p.init ∧
      (checkPerformanceAndAdjust p now).lastAdjustment = now) ∧
    (∀ q : QualitySettings,
      (5 < q.particleCount →
        eqExceptParticles q (reduceQuality q) ∧
        (reduceQuality q).particleCount < q.particleCount) ∧
      (q.particleCount ≤ 5 → 1/2 < q.pixelRatio →
        eqExceptPixelRatio q (reduceQuality q) ∧
        (reduceQuality q).pixelRatio < q.pixelRatio) ∧
      (q.particleCount ≤ 5 → q.pixelRatio ≤ 1/2 → q.antialiasing = true →
        eqExceptAA q (reduceQuality q) ∧ (reduceQuality q).antialiasing = false) ∧
      (q.particleCount ≤ 5 → q.pixelRatio ≤ 1/2 → q.antialiasing = false →
        1/2 < q.textureQuality →
        eqExceptTexture q (reduceQuality q) ∧ (reduceQuality q).textureQuality = 1/2) ∧
      (q.particleCount ≤ 5 → q.pixelRatio ≤ 1/2 → q.antialiasing = false →
        q.textureQuality ≤ 1/2 → 10 < q.maxEntities →
        eqExceptEntities q (reduceQuality q) ∧
        (reduceQuality q).maxEntities < q.maxEntities)) ∧
    (∀ q init : QualitySettings,
      (q.particleCount < init.particleCount →
        eqExceptParticles q (increaseQuality q init) ∧
        q.particleCount < (increaseQuality q init).particleCount ∧
        (increaseQuality q init).particleCount ≤ init.particleCount) ∧
      (init.particleCount ≤ q.particleCount → q.pixelRatio < init.pixelRatio →
        eqExceptPixelRatio q (increaseQuality q init) ∧
        q.pixelRatio < (increaseQuality q init).pixelRatio ∧
        (increaseQuality q init).pixelRatio ≤ init.pixelRatio) ∧
      (init.particleCount ≤ q.particleCount → init.pixelRatio ≤ q.pixelRatio →
        q.antialiasing = false → init.antialiasing = true →
        eqExceptAA q (increaseQuality q init) ∧
        (increaseQuality q init).antialiasing = true) ∧
      (init.particleCount ≤ q.particleCount → init.pixelRatio ≤ q.pixelRatio →
        (q.antialiasing = true ∨ init.antialiasing = false) →
        q.textureQuality < init.textureQuality →
        eqExceptTexture q (increaseQuality q init) ∧
        (increaseQuality q init).textureQuality = init.textureQuality) ∧
      (init.particleCount ≤ q.particleCount → init.pixelRatio ≤ q.pixelRatio →
        (q.antialiasing = true ∨ init.antialiasing = false) →
        init.textureQuality ≤ q.textureQuality → q.maxEntities < init.maxEntities →
        eqExceptEntities q (increaseQuality q init) ∧
        q.maxEntities < (increaseQuality q init).maxEntities ∧
        (increaseQuality q init).maxEntities ≤ init.maxEntities)) := by
  refine ⟨?_, ?_, ?_, ?_⟩
  · intro p now h1 h2 h3
    simp only [checkPerformanceAndAdjust]
    rw [if_neg (not_lt.mpr h1), if_neg (by omega), if_pos h3]
    exact ⟨rfl, rfl⟩
  · intro p now h1 h2 hpos h3 hcan
    have hnot : ¬avgFPS p.history < p.settings.targetFPS * (8/10) := by
      intro hlt
      nlinarith
    simp only [checkPerformanceAndAdjust]
    rw [if_neg (not_lt.mpr h1), if_neg (by omega), if_neg hnot, if_pos ⟨h3, hcan⟩]
    exact ⟨rfl, rfl⟩
  · intro q
    refine ⟨fun h => ?_, fun h1 h2 => ?_, fun h1 h2 h3 => ?_,
      fun h1 h2 h3 h4 => ?_, fun h1 h2 h3 h4 h5 => ?_⟩
    · rw [reduceQuality_particles q h]
      exact ⟨⟨rfl, rfl, rfl, rfl, rfl, rfl⟩, max_lt h (by linarith)⟩
    · rw [reduceQuality_pixel q (not_lt.mpr h1) h2]
      exact ⟨⟨rfl, rfl, rfl, rfl, rfl, rfl⟩, max_lt h2 (by linarith)⟩
    · rw [reduceQuality_aa q (not_lt.mpr h1) (not_lt.mpr h2) h3]
      exact ⟨⟨rfl, rfl, rfl, rfl, rfl, rfl⟩, rfl⟩
    · rw [reduceQuality_texture q (not_lt.mpr h1) (not_lt.mpr h2) h3 h4]
      exact ⟨⟨rfl, rfl, rfl, rfl, rfl, rfl⟩, rfl⟩
    · rw [reduceQuality_entities q (not_lt.mpr h1) (not_lt.mpr h2) h3 (not_lt.mpr h4) h5]
      exact ⟨⟨rfl, rfl, rfl, rfl, rfl, rfl⟩, max_lt h5 (by linarith)⟩
  · intro q init
    refine ⟨fun h => ?_, fun h1 h2 => ?_, fun h1 h2 h3 h4 => ?_,
      fun h1 h2 h3 h4 => ?_, fun h1 h2 h3 h4 h5 => ?_⟩
    · rw [increaseQuality_particles q init h]
      exact ⟨⟨rfl, rfl, rfl, rfl, rfl, rfl⟩, lt_min h (by linarith), min_le_left _ _⟩
    · rw [increaseQuality_pixel q init (not_lt.mpr h1) h2]
      exact ⟨⟨rfl, rfl, rfl, rfl, rfl, rfl⟩, lt_min h2 (by linarith), min_le_left _ _⟩
    · rw [increaseQuality_aa q init (not_lt.mpr h1) (not_lt.mpr h2) h3 h4]
      exact ⟨⟨rfl, rfl, rfl, rfl, rfl, rfl⟩, rfl⟩
    · rw [increaseQuality_texture q init (not_lt.mpr h1) (not_lt.mpr h2) h3 h4]
      exact ⟨⟨rfl, rfl, rfl, rfl, rfl, rfl⟩, rfl⟩
    · rw [increaseQuality_entities q init (not_lt.mpr h1) (not_lt.mpr h2) h3
        (not_lt.mpr h4) h5]
      exact ⟨⟨rfl, rfl, rfl, rfl, rfl, rfl⟩, lt_min h5 (by linarith), min_le_left _ _⟩

/-- A controller state under sustained low FPS: HIGH-tier settings with
thirty 100 ms frames sampled (10 FPS against a 60 FPS target) and the
cooldown long expired. -/
def perfW : PerfState :=
  { settings := getInitialQualitySettings DeviceCapability.HIGH 2,
    init := getInitialQualitySettings DeviceCapability.HIGH 2,
    history := List.replicate 30 100,
    lastAdjustment := 0 }

/-- Witness for C3's amended theorem: the concrete low-FPS state is
downgraded by reduceQuality (one dimension, the particle budget) and the
cooldown clock is stamped. -/
theorem quality_adjust_amended_witness :
    (checkPerformanceAndAdjust perfW 6000).settings = reduceQuality perfW.settings ∧
    (checkPerformanceAndAdjust perfW 6000).lastAdjustment = 6000 := by
  refine quality_adjust_amended.1 perfW 6000 (by norm_num [perfW, qualityAdjustmentCooldown])
    (by norm_num [perfW]) ?_
  norm_num [perfW, avgFPS, getInitialQualitySettings]

end DiaperDefense
